import Mathlib

/-!
Shallow embedding of the camera-actor subsystem of the repository:
`CameraWrapper` from `uscope_ctrl/cameras_ctrl.py` (the PCO variant) and
`wfs/wfs_reconstruction/camera/cameras_ctrl.py` (the IDS variant).

Modelling conventions:
* Python `multiprocessing.Queue` values are modelled explicitly.  The bounded
  Images queue (the one the claims are about) carries its capacity; the
  diagnostics queue (`messages2caller`), the exceptions queue and the command
  queue (`messages_queue`) are modelled as unbounded traces/lists, since their
  capacity limits never enter the specified behaviour.
* `np.random.randint(0, high=255, ...)` is modelled by an arbitrary random
  source `rand : Nat → Nat → Nat` reduced mod 255, which reproduces exactly
  the value range [0, 255) of the call.
* Device-library calls (pco / pyueye) are modelled by their observable effect
  on the wrapper state plus counters for the device-level side effects
  (`deviceCloseCalls`, `stopStreamCalls`); an acquisition from a physical
  camera is an oracle value of type `Except String (List (List Nat))`
  (exception or frame).  Device-reported text that is interpolated into
  diagnostics lines (health status, `str(parameters)`, the echoed exposure
  time) is abstracted to fixed label strings: no claim depends on it.
* A raised Python exception is `Except.error`/`LiveStep.raised` with the
  state at the raise point.
-/

/-- A value sent as the parameter part of a tuple command on the commands
queue: a Python int, float, pair or 4-tuple. -/
inductive Payload where
  | int (v : Int)
  | float (v : ℚ)
  | pair (a b : Int)
  | quad (a b c d : Int)
deriving DecidableEq

/-- The `isinstance(x, int)` test used by the PCO-variant
`set_exposure_time`. -/
def Payload.isInt : Payload → Bool
  | .int _ => true
  | _ => false

/-- The `isinstance(x, float)` test used by the IDS-variant
`set_exposure_time`. -/
def Payload.isFloat : Payload → Bool
  | .float _ => true
  | _ => false

/-- A message on the commands queue (`messages_queue`): a string command, a
`(command, parameters)` tuple, or an Exception value. -/
inductive Msg where
  | str (s : String)
  | tup (cmd : String) (p : Payload)
  | exc (e : String)
deriving DecidableEq

/-- An item placed on the images queue: an acquired/generated frame (rows of
pixel values), a text placeholder string, or the `beads.png` replacement
image used by the PCO variant in degraded mode (`replace_img_camera`). -/
inductive QItem where
  | frame (img : List (List Nat))
  | text (s : String)
  | replaceImg
deriving DecidableEq

/-- The bounded images queue (`multiprocessing.Queue(maxsize=cap)`). -/
structure ImagesQueue where
  cap : Nat
  items : List QItem
deriving DecidableEq

/-- `Queue.full()`: the queue holds at least `cap` items. -/
def ImagesQueue.isFull (q : ImagesQueue) : Bool :=
  q.cap ≤ q.items.length

/-- `Queue.put_nowait(x)`: appends when there is room, raises `Full`
otherwise. -/
def ImagesQueue.put_nowait (q : ImagesQueue) (x : QItem) : Except String ImagesQueue :=
  if q.items.length < q.cap then
    Except.ok { q with items := q.items ++ [x] }
  else
    Except.error ("Full")

/-- The observable state of a `CameraWrapper` instance, as mutated by the
methods embedded below.  `camera_active` stands for
`camera_reference is not None`; the three counters record device-level and
wrapper-level side effects. -/
structure Cam where
  initialized : Bool
  camera_type : String
  camera_active : Bool
  live_stream_flag : Bool
  exposure_time_ms : ℚ
  max_width : Int
  max_height : Int
  image_width : Int
  image_height : Int
  msgs : List Msg
  images : ImagesQueue
  messages2caller : List String
  exceptions_queue : List String
  closeCalls : Nat
  deviceCloseCalls : Nat
  stopStreamCalls : Nat
  imagesClosed : Bool
  n_check_camera_status : Nat
deriving DecidableEq

/-- `CameraWrapper.generate_noise_picture` (identical logic in both
variants): for dimensions at least 2, a `height × width` array with entries
drawn by `np.random.randint(0, high=255)`, i.e. in [0, 255); otherwise an
Exception is raised.  The non-default `pixel_type` branches are never reached
by the actor (every call site uses the default); the unreached fallback is
the 1×1 zeros array the source pre-allocates. -/
def generate_noise_picture (rand : Nat → Nat → Nat) (height width : Int)
    (pixel_type : String := "uint8") : Except String (List (List Nat)) :=
  if 2 ≤ height ∧ 2 ≤ width then
    Except.ok
      (if pixel_type = "uint8" then
        (List.range height.toNat).map (fun i =>
          (List.range width.toNat).map (fun j => rand i j % 255))
      else [[0]])
  else
    Except.error ("Specified height or width are less than 2")

/-- `CameraWrapper.close` (both variants): the device-level close is issued
only for an active physical camera (pco `close()` / `is_ExitCamera`), then a
diagnostics line is emitted.  `closeCalls` counts invocations of this
method. -/
def Cam.close (c : Cam) : Cam :=
  let c1 :=
    if (c.camera_type = "PCO" ∨ c.camera_type = "IDS") ∧ c.camera_active = true then
      { c with deviceCloseCalls := c.deviceCloseCalls + 1 }
    else c
  { c1 with
    closeCalls := c1.closeCalls + 1,
    messages2caller := c1.messages2caller ++
      ["The " ++ c1.camera_type ++ " camera close() performed"] }

/-- `set_exposure_time` of the uscope_ctrl (PCO) variant: the body runs only
for `isinstance(exposure_t_ms, int)`; a non-positive value is replaced by 1;
for an active PCO camera the value is forwarded to the device and the echoed
exposure is reported (the echo is modelled as the set value). -/
def set_exposure_time_pco (p : Payload) (c : Cam) : Cam :=
  match p with
  | .int v =>
      let v1 : Int := if v ≤ 0 then 1 else v
      let c1 := { c with exposure_time_ms := (v1 : ℚ) }
      if c1.camera_active = true ∧ c1.camera_type = "PCO" then
        { c1 with messages2caller := c1.messages2caller ++
            ["The set exposure time ms: " ++ toString v1] }
      else c1
  | _ => c

/-- `set_exposure_time` of the wfs (IDS) variant: the body runs only for
`isinstance(exposure_t_ms, float)`; a non-positive value is replaced by 1;
the Simulated camera reports the stored value, an active IDS camera forwards
it to the device and reports the echoed value. -/
def set_exposure_time_ids (p : Payload) (c : Cam) : Cam :=
  match p with
  | .float v =>
      let v1 : ℚ := if v ≤ 0 then 1 else v
      let c1 := { c with exposure_time_ms := v1 }
      let c2 :=
        if c1.camera_type = "Simulated" then
          { c1 with messages2caller := c1.messages2caller ++
              ["The set exposure time ms: " ++ toString v1] }
        else c1
      if c2.camera_active = true ∧ c2.camera_type = "IDS" then
        { c2 with messages2caller := c2.messages2caller ++
            ["The set exposure time ms: " ++ toString v1] }
      else c2
  | _ => c

/-- `CameraWrapper.crop_image`: the Simulated camera only reassigns
`image_width`/`image_height`; a physical camera forwards the region of
interest to the device (no wrapper-state change). -/
def crop_image (yLeftUpper xLeftUpper width height : Int) (c : Cam) : Cam :=
  if c.camera_type = "Simulated" then
    { c with image_width := width, image_height := height }
  else c

/-- `CameraWrapper.restore_full_frame`: the Simulated camera reassigns
`image_width`/`image_height` from `max_width`/`max_height`; a physical
camera resets the device region of interest (no wrapper-state change). -/
def restore_full_frame (c : Cam) : Cam :=
  if c.camera_type = "Simulated" then
    { c with image_width := c.max_width, image_height := c.max_height }
  else c

/-- `CameraWrapper.update_simulated_sizes`: sets both the current and the
maximal dimensions. -/
def update_simulated_sizes (width height : Int) (c : Cam) : Cam :=
  { c with image_width := width, max_width := width,
           image_height := height, max_height := height }

/-- `CameraWrapper.snap_single_image` (uscope_ctrl variant): an active PCO
camera acquires one frame (oracle `acq`) and enqueues it with an unguarded
`put_nowait`; a PCO camera without hardware enqueues the `beads.png`
replacement image; the Simulated camera generates a noise frame and enqueues
it.  Any raised exception (acquisition failure, dimension error, `Full`)
propagates to the caller. -/
def snap_single_image (rand : Nat → Nat → Nat)
    (acq : Except String (List (List Nat))) (c : Cam) : Except String Cam :=
  if c.camera_active = true ∧ c.camera_type = "PCO" then
    match acq with
    | .ok image => do
        let q ← c.images.put_nowait (QItem.frame image)
        Except.ok { c with images := q }
    | .error e => Except.error e
  else if c.camera_active = false ∧ c.camera_type = "PCO" then do
    let q ← c.images.put_nowait QItem.replaceImg
    Except.ok { c with images := q }
  else if c.camera_type = "Simulated" then do
    let image ← generate_noise_picture rand c.image_height c.image_width
    let q ← c.images.put_nowait (QItem.frame image)
    Except.ok { c with images := q }
  else
    Except.ok c

/-- Result of one step of the live-streaming code: either the next state, or
a Python exception escaping `live_imaging` together with the state at the
raise point. -/
inductive LiveStep where
  | ok (c : Cam)
  | raised (e : String) (c : Cam)
deriving DecidableEq

/-- The acquire-and-push phase of one iteration of the `live_imaging` loop
(uscope_ctrl variant; the wfs variant is structurally identical on the
points the claims touch).  An active PCO camera waits for a frame (oracle
`acq`; an exception there is caught, reported twice to diagnostics, and
stops the stream) and pushes it only when the queue is not full, the push
itself additionally wrapped in `except Full: pass`.  A PCO camera without
hardware pushes its placeholder string with an unguarded `put_nowait`.  The
Simulated camera generates a noise frame (a dimension error propagates
uncaught) and pushes it only when the queue is not full. -/
def live_phase (rand : Nat → Nat → Nat) (acq : Except String (List (List Nat)))
    (c : Cam) : LiveStep :=
  if c.camera_type = "PCO" ∧ c.camera_active = true then
    match acq with
    | .ok image =>
        LiveStep.ok
          (if c.images.isFull then c
           else { c with images :=
                    { c.images with items := c.images.items ++ [QItem.frame image] } })
    | .error e =>
        LiveStep.ok
          { c with
            messages2caller := c.messages2caller ++
              ["The Live Mode finished by PCO camera because of thrown Exception",
               "Thrown error: " ++ e],
            live_stream_flag := false }
  else if c.camera_type = "PCO" ∧ c.camera_active = false then
    match c.images.put_nowait (QItem.text ("Live Image substituted by this string")) with
    | .ok q => LiveStep.ok { c with images := q }
    | .error e => LiveStep.raised e c
  else if c.camera_type = "Simulated" then
    match generate_noise_picture rand c.image_height c.image_width with
    | .ok image =>
        LiveStep.ok
          (if c.images.isFull then c
           else { c with images :=
                    { c.images with items := c.images.items ++ [QItem.frame image] } })
    | .error e => LiveStep.raised e c
  else
    LiveStep.ok c

/-- The once-per-tick command check of the `live_imaging` loop: when the
commands queue is non-empty one message is popped.  "Stop Live Stream"
reports, stops the device stream for an active physical camera, clears the
flag and breaks.  An Exception value does the same and re-enqueues itself
for the main loop.  Any other message is consumed and dropped. -/
def live_check (c : Cam) : Cam :=
  match c.msgs with
  | [] => c
  | m :: rest =>
    match m with
    | .str s =>
        if s = "Stop Live Stream" then
          let c1 := { c with msgs := rest,
                             messages2caller := c.messages2caller ++
                               ["Camera stop live streaming"] }
          let c2 :=
            if c1.camera_type = "PCO" ∧ c1.camera_active = true then
              { c1 with stopStreamCalls := c1.stopStreamCalls + 1 }
            else c1
          { c2 with live_stream_flag := false }
        else { c with msgs := rest }
    | .exc e =>
        let c1 := { c with msgs := rest,
                           messages2caller := c.messages2caller ++
                             ["Camera stop live streaming because of the reported error"] }
        let c2 :=
          if c1.camera_type = "PCO" ∧ c1.camera_active = true then
            { c1 with stopStreamCalls := c1.stopStreamCalls + 1 }
          else c1
        { c2 with msgs := c2.msgs ++ [Msg.exc e], live_stream_flag := false }
    | .tup _ _ => { c with msgs := rest }

/-- One full iteration of the `live_imaging` while-loop: the acquire-and-push
phase followed by the command check (the check is reached even when the phase
cleared the flag, but not when the phase raised). -/
def live_iter (rand : Nat → Nat → Nat) (acq : Except String (List (List Nat)))
    (c : Cam) : LiveStep :=
  match live_phase rand acq c with
  | .raised e c1 => LiveStep.raised e c1
  | .ok c1 => LiveStep.ok (live_check c1)

/-- The `while self.live_stream_flag` loop of `live_imaging`, with fuel; each
tick consumes the head of the acquisition oracle list.  The loop stops when
the flag is cleared; a raised exception aborts it and propagates. -/
def live_imaging_loop (rand : Nat → Nat → Nat) :
    Nat → List (Except String (List (List Nat))) → Cam → Cam × Option String
  | 0, _, c => (c, none)
  | n + 1, acqs, c =>
    match live_iter rand (acqs.headD (Except.error ("no frame"))) c with
    | .raised e c1 => (c1, some e)
    | .ok c1 =>
        if c1.live_stream_flag then live_imaging_loop rand n acqs.tail c1
        else (c1, none)

/-- `CameraWrapper.live_imaging`: sets the flag and runs the streaming
loop. -/
def live_imaging (rand : Nat → Nat → Nat) (fuel : Nat)
    (acqs : List (Except String (List (List Nat)))) (c : Cam) : Cam × Option String :=
  live_imaging_loop rand fuel acqs { c with live_stream_flag := true }

/-- The close-command synonym test of the uscope_ctrl (PCO) variant's main
loop, exactly as the source compares the received string. -/
def is_close_command_pco (m : String) : Bool :=
  (m == "Close the camera" || m == "Stop" || m == "Stop Program")
    || (m == "Close Camera")

/-- The close-command synonym test of the wfs (IDS) variant's main loop,
which additionally accepts "Close camera". -/
def is_close_command_ids (m : String) : Bool :=
  (m == "Close the camera" || m == "Stop" || m == "Stop Program")
    || (m == "Close Camera") || (m == "Close camera")

/-- The environment a dispatch step draws on: the random source, the
single-snap acquisition oracle, and fuel plus per-tick acquisition oracles
for a started live stream. -/
structure Env where
  rand : Nat → Nat → Nat
  acq : Except String (List (List Nat))
  liveFuel : Nat
  acqs : List (Except String (List (List Nat)))

/-- Handling of one received message by the body of `CameraWrapper.run`'s
main loop (uscope_ctrl variant).  The returned Bool is true exactly when the
branch executes `break`.  The close branch reports the command, calls
`close()`, nulls the camera reference, closes the images queue, and in its
`finally` clears `initialized` and breaks.  A raised exception from
`live_imaging` or `snap_single_image` is reported to the exceptions queue
(the snap branch also closes the camera and clears `initialized`).  An
Exception message only calls `close()`. -/
def dispatch_pco (env : Env) (m : Msg) (c : Cam) : Cam × Bool :=
  match m with
  | .str s =>
    if is_close_command_pco s then
      let c1 := { c with messages2caller := c.messages2caller ++
                    ["Received by the Camera: " ++ s] }
      let c2 := c1.close
      let c3 := { c2 with camera_active := false, imagesClosed := true }
      ({ c3 with initialized := false }, true)
    else if s = "Start Live Stream" then
      let c1 := { c with messages2caller := c.messages2caller ++
                    ["Camera start live streaming"] }
      match live_imaging env.rand env.liveFuel env.acqs c1 with
      | (c2, none) => (c2, false)
      | (c2, some e) =>
          ({ c2 with
             messages2caller := c2.messages2caller ++ ["Error string: " ++ e, e],
             exceptions_queue := c2.exceptions_queue ++ [e] }, false)
    else if s = "Snap single image" then
      match snap_single_image env.rand env.acq c with
      | .ok c1 =>
          ({ c1 with messages2caller := c1.messages2caller ++
               ["Single image snap performed"] }, false)
      | .error e =>
          let c1 := c.close
          ({ c1 with initialized := false,
                     exceptions_queue := c1.exceptions_queue ++ [e] }, false)
    else if s = "Get the PCO camera status" then
      (if c.camera_type = "PCO" ∧ c.camera_active = true then
        { c with messages2caller := c.messages2caller ++
            ["Camera status: <device health>", "<device acquire mode>",
             "<device frame rate>", "<device acquire mode ex>"] }
       else c, false)
    else if s = "Restore Full Frame" then
      (restore_full_frame
        { c with messages2caller := c.messages2caller ++
            ["Full frame restored: (" ++ toString c.max_width ++ ", "
              ++ toString c.max_height ++ ")"] }, false)
    else (c, false)
  | .tup cmd p =>
    if cmd = "Crop Image" then
      let c1 := { c with messages2caller := c.messages2caller ++
                    ["Crop coordinates: <parameters>"] }
      match p with
      | .quad yLeftUpper xLeftUpper height width =>
          (crop_image yLeftUpper xLeftUpper width height c1, false)
      | _ => (c1, false)
    else if cmd = "Set exposure time" then
      (set_exposure_time_pco p c, false)
    else if cmd = "Change simulate picture sizes to:" then
      match p with
      | .pair width height => (update_simulated_sizes width height c, false)
      | _ => (c, false)
    else (c, false)
  | .exc _ => (c.close, false)

/-- The per-iteration tail of the main loop: the sleep plus the periodic
status report for an active PCO camera (every 300000 / 25 iterations). -/
def tick (c : Cam) : Cam :=
  if c.camera_type = "PCO" ∧ c.camera_active = true then
    if c.n_check_camera_status < 12000 then
      { c with n_check_camera_status := c.n_check_camera_status + 1 }
    else
      { c with n_check_camera_status := 0,
               messages2caller := c.messages2caller ++
                 ["Camera status after 5min: <device health>"] }
  else c

/-- The `while self.initialized` main loop of `CameraWrapper.run`
(uscope_ctrl variant), with fuel: each iteration pops at most one command,
dispatches it, and — unless the dispatch broke out — sleeps and runs the
periodic status check before looping. -/
def run_loop (env : Env) : Nat → Cam → Cam
  | 0, c => c
  | n + 1, c =>
    if c.initialized then
      match c.msgs with
      | [] => run_loop env n (tick c)
      | m :: rest =>
          let r := dispatch_pco env m { c with msgs := rest }
          if r.2 then r.1 else run_loop env n (tick r.1)
    else c

/-- `CameraWrapper.run` after its initialization prologue: the main loop
followed by the final diagnostics line emitted once the loop has
terminated.  (With enough fuel for the run under consideration, the fuelled
loop coincides with the source's unbounded one.) -/
def run_pco (env : Env) (fuel : Nat) (c : Cam) : Cam :=
  let c1 := run_loop env fuel c
  { c1 with messages2caller := c1.messages2caller ++
      ["run() of Process finished for " ++ c1.camera_type ++ " camera"] }

/-! Concrete states used by witnesses and counterexamples. -/

/-- A fixed random source for the concrete witnesses. -/
def rand0 : Nat → Nat → Nat := fun _ _ => 0

/-- A concrete environment for the concrete witnesses. -/
def env0 : Env :=
  { rand := rand0, acq := Except.ok ([[0, 0], [0, 0]]), liveFuel := 0, acqs := [] }

/-- A freshly initialized Simulated-camera wrapper with a 2×2 image. -/
def simCam : Cam :=
  { initialized := true, camera_type := "Simulated", camera_active := false,
    live_stream_flag := false, exposure_time_ms := 100,
    max_width := 2, max_height := 2, image_width := 2, image_height := 2,
    msgs := [], images := { cap := 40, items := [] },
    messages2caller := [], exceptions_queue := [],
    closeCalls := 0, deviceCloseCalls := 0, stopStreamCalls := 0,
    imagesClosed := false, n_check_camera_status := 0 }

/-- A degraded-mode PCO wrapper (library present, no camera handle) whose
images queue is full. -/
def degCam : Cam :=
  { simCam with camera_type := "PCO", camera_active := false,
                images := { cap := 1, items := [QItem.text ("stale")] } }

/-- A sequence of "Crop Image" rectangles applied in order through
`crop_image`. -/
def apply_crops (rects : List (Int × Int × Int × Int)) (c : Cam) : Cam :=
  rects.foldl (fun a r => crop_image r.1 r.2.1 r.2.2.1 r.2.2.2 a) c

/-! Claim theorems. -/

/-- C3: a "Set exposure time" payload of the variant's numeric type that is
non-positive results in an effective exposure of exactly 1 ms (never 0,
never negative), and a positive payload becomes the effective exposure
unchanged — for the uscope_ctrl (PCO) variant with an int payload and the
wfs (IDS) variant with a float payload. -/
theorem set_exposure_clamps_to_one (v : Int) (q : ℚ) (c d : Cam) :
    (set_exposure_time_pco (Payload.int v) c).exposure_time_ms
        = (if v ≤ 0 then 1 else (v : ℚ)) ∧
    (set_exposure_time_ids (Payload.float q) d).exposure_time_ms
        = (if q ≤ 0 then 1 else q) := by
  constructor
  · simp only [set_exposure_time_pco]
    split_ifs <;> simp_all
  · simp only [set_exposure_time_ids]
    split_ifs <;> simp_all

/-- C10: a "Set exposure time" payload that is not an instance of the
variant's expected numeric type (int for the PCO-variant wrapper, float for
the IDS-variant wrapper) is silently ignored: the whole wrapper state —
exposure, queues, diagnostics — is left identical, and the dispatcher emits
nothing and does not break. -/
theorem wrong_type_exposure_ignored (env : Env) (p q : Payload) (c d : Cam)
    (hp : p.isInt = false) (hq : q.isFloat = false) :
    set_exposure_time_pco p c = c ∧
    set_exposure_time_ids q d = d ∧
    dispatch_pco env (Msg.tup ("Set exposure time") p) c = (c, false) := by
  have h1 : set_exposure_time_pco p c = c := by
    cases p with
    | int v => simp [Payload.isInt] at hp
    | float v => rfl
    | pair a b => rfl
    | quad a b c1 d1 => rfl
  have h2 : set_exposure_time_ids q d = d := by
    cases q with
    | float v => simp [Payload.isFloat] at hq
    | int v => rfl
    | pair a b => rfl
    | quad a b c1 d1 => rfl
  refine ⟨h1, h2, ?_⟩
  simp [dispatch_pco, h1]

/-- C10 witness: a positive float payload on the PCO variant and a positive
int payload on the IDS variant are both ignored. -/
theorem wrong_type_exposure_ignored_witness :
    set_exposure_time_pco (Payload.float 5) simCam = simCam ∧
    set_exposure_time_ids (Payload.int 7) simCam = simCam ∧
    dispatch_pco env0 (Msg.tup ("Set exposure time") (Payload.float 5)) simCam
      = (simCam, false) :=
  wrong_type_exposure_ignored env0 (Payload.float 5) (Payload.int 7) simCam simCam
    (by decide) (by decide)

/-- C4: for every configured width and height at least 2, the Simulated
generator returns a frame of exactly `height` rows and `width` columns whose
samples all lie in the 0–255 pixel range of the default uint8
declaration. -/
theorem generated_frame_shape_and_range (rand : Nat → Nat → Nat) (h w : Int)
    (hh : 2 ≤ h) (hw : 2 ≤ w) :
    ∃ img, generate_noise_picture rand h w = Except.ok img ∧
      (img.length : Int) = h ∧
      (∀ row ∈ img, (row.length : Int) = w) ∧
      (∀ row ∈ img, ∀ px ∈ row, px ≤ 255) := by
  have hcond : 2 ≤ h ∧ 2 ≤ w := ⟨hh, hw⟩
  refine ⟨(List.range h.toNat).map (fun i =>
      (List.range w.toNat).map (fun j => rand i j % 255)), ?_, ?_, ?_, ?_⟩
  · simp [generate_noise_picture, hcond]
  · simp [Int.toNat_of_nonneg (by omega : (0 : Int) ≤ h)]
  · intro row hrow
    simp only [List.mem_map] at hrow
    obtain ⟨i, _, rfl⟩ := hrow
    simp [Int.toNat_of_nonneg (by omega : (0 : Int) ≤ w)]
  · intro row hrow px hpx
    simp only [List.mem_map] at hrow
    obtain ⟨i, _, rfl⟩ := hrow
    simp only [List.mem_map] at hpx
    obtain ⟨j, _, rfl⟩ := hpx
    have := Nat.mod_lt (rand i j) (show 0 < 255 by norm_num)
    omega

/-- C4 witness: the generator at width 2, height 2 with a concrete random
source. -/
theorem generated_frame_shape_and_range_witness :
    ∃ img, generate_noise_picture rand0 2 2 = Except.ok img ∧
      (img.length : Int) = 2 ∧
      (∀ row ∈ img, (row.length : Int) = 2) ∧
      (∀ row ∈ img, ∀ px ∈ row, px ≤ 255) :=
  generated_frame_shape_and_range rand0 2 2 (by decide) (by decide)

/-- C5: when either configured dimension is below 2, the Simulated generator
raises the dimension error and returns no frame, `snap_single_image`
propagates the error, and the dispatcher's snap branch leaves the images
queue unchanged — no malformed frame is produced or enqueued. -/
theorem undersized_frame_rejected (env : Env) (pt : String) (c : Cam)
    (hdim : c.image_height < 2 ∨ c.image_width < 2)
    (hc : c.camera_type = "Simulated") :
    generate_noise_picture env.rand c.image_height c.image_width pt
        = Except.error ("Specified height or width are less than 2") ∧
    snap_single_image env.rand env.acq c
        = Except.error ("Specified height or width are less than 2") ∧
    (dispatch_pco env (Msg.str ("Snap single image")) c).1.images = c.images := by
  have hgen : ∀ s : String,
      generate_noise_picture env.rand c.image_height c.image_width s
        = Except.error ("Specified height or width are less than 2") := by
    intro s
    have hcond : ¬(2 ≤ c.image_height ∧ 2 ≤ c.image_width) := by omega
    simp [generate_noise_picture, hcond]
  have hsnap : snap_single_image env.rand env.acq c
      = Except.error ("Specified height or width are less than 2") := by
    simp [snap_single_image, hc, hgen]
    rfl
  have hnc : is_close_command_pco ("Snap single image") = false := by decide
  refine ⟨hgen pt, hsnap, ?_⟩
  simp only [dispatch_pco, hnc]
  simp [hsnap, Cam.close]
  split <;> simp

/-- C5 witness: a Simulated camera configured 1×1 is rejected. -/
theorem undersized_frame_rejected_witness :
    generate_noise_picture env0.rand
        ({ simCam with image_height := 1, image_width := 1 } : Cam).image_height
        ({ simCam with image_height := 1, image_width := 1 } : Cam).image_width "uint8"
        = Except.error ("Specified height or width are less than 2") ∧
    snap_single_image env0.rand env0.acq { simCam with image_height := 1, image_width := 1 }
        = Except.error ("Specified height or width are less than 2") ∧
    (dispatch_pco env0 (Msg.str ("Snap single image"))
        { simCam with image_height := 1, image_width := 1 }).1.images
      = ({ simCam with image_height := 1, image_width := 1 } : Cam).images :=
  undersized_frame_rejected env0 "uint8" { simCam with image_height := 1, image_width := 1 }
    (by decide) (by decide)

theorem crop_image_preserves_bounds (y x w h : Int) (c : Cam) :
    (crop_image y x w h c).max_width = c.max_width ∧
    (crop_image y x w h c).max_height = c.max_height ∧
    (crop_image y x w h c).camera_type = c.camera_type := by
  simp only [crop_image]
  split <;> simp

theorem apply_crops_preserves_bounds (rects : List (Int × Int × Int × Int)) (c : Cam) :
    (apply_crops rects c).max_width = c.max_width ∧
    (apply_crops rects c).max_height = c.max_height ∧
    (apply_crops rects c).camera_type = c.camera_type := by
  induction rects generalizing c with
  | nil => simp [apply_crops]
  | cons r rs ih =>
      simp only [apply_crops, List.foldl_cons]
      have h1 := crop_image_preserves_bounds r.1 r.2.1 r.2.2.1 r.2.2.2 c
      have h2 := ih (crop_image r.1 r.2.1 r.2.2.1 r.2.2.2 c)
      simp only [apply_crops] at h2
      exact ⟨h2.1.trans h1.1, h2.2.1.trans h1.2.1, h2.2.2.trans h1.2.2⟩

/-- C6: any sequence of "Crop Image" rectangles leaves the stored maximal
width/height (recorded at initialization) unchanged, and a subsequent
"Restore Full Frame" returns the current image width/height to exactly those
values. -/
theorem crop_then_restore_roundtrip (c : Cam) (rects : List (Int × Int × Int × Int))
    (hc : c.camera_type = "Simulated") :
    (apply_crops rects c).max_width = c.max_width ∧
    (apply_crops rects c).max_height = c.max_height ∧
    (restore_full_frame (apply_crops rects c)).image_width = c.max_width ∧
    (restore_full_frame (apply_crops rects c)).image_height = c.max_height := by
  have hp := apply_crops_preserves_bounds rects c
  have htype : (apply_crops rects c).camera_type = "Simulated" := hp.2.2.trans hc
  refine ⟨hp.1, hp.2.1, ?_, ?_⟩ <;>
    simp [restore_full_frame, htype, hp.1, hp.2.1]

/-- C6 witness: two concrete crops followed by a restore on the concrete
Simulated camera. -/
theorem crop_then_restore_roundtrip_witness :
    (apply_crops [(0, 0, 5, 5), (1, 1, 3, 4)] simCam).max_width = simCam.max_width ∧
    (apply_crops [(0, 0, 5, 5), (1, 1, 3, 4)] simCam).max_height = simCam.max_height ∧
    (restore_full_frame (apply_crops [(0, 0, 5, 5), (1, 1, 3, 4)] simCam)).image_width
      = simCam.max_width ∧
    (restore_full_frame (apply_crops [(0, 0, 5, 5), (1, 1, 3, 4)] simCam)).image_height
      = simCam.max_height :=
  crop_then_restore_roundtrip simCam [(0, 0, 5, 5), (1, 1, 3, 4)] (by decide)

/-- C2 (amended): an Exception value received on the commands queue makes
the main loop call `close()` — the device-level close happening exactly when
a physical camera is active — but, unlike a Close command, the loop does not
break and `initialized` is left unchanged, so the actor keeps processing
subsequent commands. -/
theorem error_message_closes_without_stopping (env : Env) (e : String) (c : Cam) :
    dispatch_pco env (Msg.exc e) c = (c.close, false) ∧
    (c.close).closeCalls = c.closeCalls + 1 ∧
    (c.close).initialized = c.initialized := by
  refine ⟨rfl, ?_, ?_⟩ <;>
    (simp only [Cam.close]; split <;> rfl)

/-- C2 (counterexample): on the commands queue [Exception, Snap], the actor
calls close() for the Exception but is still running afterwards — it
processes the following snap command and pushes one more frame, refuting
that an error value terminates the command loop. -/
theorem error_message_does_not_stop_loop :
    (run_pco env0 3 { simCam with
        msgs := [Msg.exc ("boom"), Msg.str ("Snap single image")] }).closeCalls = 1 ∧
    (run_pco env0 3 { simCam with
        msgs := [Msg.exc ("boom"), Msg.str ("Snap single image")] }).initialized = true ∧
    (run_pco env0 3 { simCam with
        msgs := [Msg.exc ("boom"), Msg.str ("Snap single image")] }).images.items.length
      = 1 := by
  refine ⟨?_, ?_, ?_⟩ <;> decide

theorem dispatch_close_fields (env : Env) (s : String) (c : Cam)
    (hs : is_close_command_pco s = true) :
    (dispatch_pco env (Msg.str s) c).2 = true ∧
    (dispatch_pco env (Msg.str s) c).1.initialized = false ∧
    (dispatch_pco env (Msg.str s) c).1.closeCalls = c.closeCalls + 1 ∧
    (dispatch_pco env (Msg.str s) c).1.msgs = c.msgs ∧
    (dispatch_pco env (Msg.str s) c).1.camera_type = c.camera_type ∧
    (dispatch_pco env (Msg.str s) c).1.deviceCloseCalls
      = c.deviceCloseCalls
        + (if (c.camera_type = "PCO" ∨ c.camera_type = "IDS") ∧ c.camera_active = true
           then 1 else 0) ∧
    ("The " ++ c.camera_type ++ " camera close() performed")
      ∈ (dispatch_pco env (Msg.str s) c).1.messages2caller := by
  simp only [dispatch_pco, hs, if_true, Cam.close]
  split <;> simp

theorem run_loop_halted (env : Env) (c : Cam) (h : c.initialized = false) :
    ∀ k, run_loop env k c = c := by
  intro k
  cases k with
  | zero => rfl
  | succ n => simp [run_loop, h]

/-- C1 (amended): a command string exactly equal to one of the synonyms
"Close the camera", "Stop", "Stop Program", "Close Camera" makes the main
command loop perform the Close sequence — `close()` is called, the final
diagnostics line is emitted, and the loop terminates with the remaining
commands unconsumed; the comparison is exact (case-sensitive), and the wfs
(IDS) variant additionally accepts the literal "Close camera". -/
theorem close_synonyms_close_exact (env : Env) (s : String) (c : Cam) (n : Nat)
    (rest : List Msg) (hs : is_close_command_pco s = true)
    (hinit : c.initialized = true) (hmsgs : c.msgs = Msg.str s :: rest) :
    (run_pco env (n + 1) c).closeCalls = c.closeCalls + 1 ∧
    (run_pco env (n + 1) c).initialized = false ∧
    ("The " ++ c.camera_type ++ " camera close() performed")
        ∈ (run_pco env (n + 1) c).messages2caller ∧
    (run_pco env (n + 1) c).messages2caller.getLast?
        = some ("run() of Process finished for " ++ c.camera_type ++ " camera") ∧
    (run_pco env (n + 1) c).msgs = rest ∧
    is_close_command_ids ("Close camera") = true := by
  have hd := dispatch_close_fields env s { c with msgs := rest } hs
  simp only [hinit] at hd
  have hrun : run_loop env (n + 1) c
      = (dispatch_pco env (Msg.str s) { c with initialized := true, msgs := rest }).1 := by
    simp only [run_loop, hinit, if_true, hmsgs]
    simp [hd.1]
  refine ⟨?_, ?_, ?_, ?_, ?_, by decide⟩ <;>
    simp [run_pco, hrun, hd.1, hd.2.1, hd.2.2.1, hd.2.2.2.1, hd.2.2.2.2.1, hd.2.2.2.2.2.2]

/-- C1 witness: the close sequence on the concrete Simulated camera for the
synonym "Stop". -/
theorem close_synonyms_close_exact_witness :
    (run_pco env0 1 { simCam with msgs := [Msg.str ("Stop")] }).closeCalls
        = ({ simCam with msgs := [Msg.str ("Stop")] } : Cam).closeCalls + 1 ∧
    (run_pco env0 1 { simCam with msgs := [Msg.str ("Stop")] }).initialized = false ∧
    ("The " ++ ({ simCam with msgs := [Msg.str ("Stop")] } : Cam).camera_type
        ++ " camera close() performed")
      ∈ (run_pco env0 1 { simCam with msgs := [Msg.str ("Stop")] }).messages2caller ∧
    (run_pco env0 1 { simCam with msgs := [Msg.str ("Stop")] }).messages2caller.getLast?
      = some ("run() of Process finished for "
          ++ ({ simCam with msgs := [Msg.str ("Stop")] } : Cam).camera_type ++ " camera") ∧
    (run_pco env0 1 { simCam with msgs := [Msg.str ("Stop")] }).msgs = [] ∧
    is_close_command_ids ("Close camera") = true :=
  close_synonyms_close_exact env0 "Stop" { simCam with msgs := [Msg.str ("Stop")] } 0 []
    (by decide) (by decide) (by decide)

/-- C1 (counterexample): "STOP" is equal to the synonym "Stop" ignoring
letter case, yet the main loop ignores it entirely — no close() call is made
and the loop keeps running, refuting the claimed case-insensitive
matching. -/
theorem close_synonyms_not_case_insensitive :
    ("STOP").toList.map Char.toLower = ("Stop").toList.map Char.toLower ∧
    (run_pco env0 2 { simCam with msgs := [Msg.str ("STOP")] }).closeCalls = 0 ∧
    (run_pco env0 2 { simCam with msgs := [Msg.str ("STOP")] }).initialized = true := by
  refine ⟨by decide, ?_, ?_⟩ <;> decide

/-- C9: a Close command at the head of the queue produces exactly one
`close()` invocation and exactly one transition to the terminated state,
whatever commands follow it (they are never consumed); afterwards the loop
is a fixed point, so a second Close command — as in the queue
[Close, Close] — is a no-op with no second close() side effect. -/
theorem close_idempotent (env : Env) (c : Cam) (n : Nat) (rest : List Msg)
    (hinit : c.initialized = true)
    (hmsgs : c.msgs = Msg.str ("Close the camera") :: rest) :
    (run_pco env (n + 1) c).closeCalls = c.closeCalls + 1 ∧
    (run_pco env (n + 1) c).initialized = false ∧
    (run_pco env (n + 1) c).msgs = rest ∧
    (run_pco env (n + 1) c).deviceCloseCalls
      = c.deviceCloseCalls
        + (if (c.camera_type = "PCO" ∨ c.camera_type = "IDS") ∧ c.camera_active = true
           then 1 else 0) ∧
    (∀ k, run_loop env k (run_pco env (n + 1) c) = run_pco env (n + 1) c) := by
  have hs : is_close_command_pco ("Close the camera") = true := by decide
  have hd := dispatch_close_fields env ("Close the camera") { c with msgs := rest } hs
  simp only [hinit] at hd
  have hrun : run_loop env (n + 1) c
      = (dispatch_pco env (Msg.str ("Close the camera"))
          { c with initialized := true, msgs := rest }).1 := by
    simp only [run_loop, hinit, if_true, hmsgs]
    simp [hd.1]
  refine ⟨?_, ?_, ?_, ?_, ?_⟩
  · simp [run_pco, hrun, hd.2.2.1]
  · simp [run_pco, hrun, hd.2.1]
  · simp [run_pco, hrun, hd.2.2.2.1]
  · simp [run_pco, hrun, hd.2.2.2.2.2.1]
  · have hfin : (run_pco env (n + 1) c).initialized = false := by
      simp [run_pco, hrun, hd.2.1]
    exact run_loop_halted env _ hfin

/-- C9 witness: the queue [Close, Close] on the concrete Simulated camera —
one close() call, the second Close never consumed, and the terminated state
is a fixed point of the loop. -/
theorem close_idempotent_witness :
    (run_pco env0 1 { simCam with
        msgs := [Msg.str ("Close the camera"), Msg.str ("Close the camera")] }).closeCalls
      = ({ simCam with
        msgs := [Msg.str ("Close the camera"), Msg.str ("Close the camera")] } : Cam).closeCalls
        + 1 ∧
    (run_pco env0 1 { simCam with
        msgs := [Msg.str ("Close the camera"), Msg.str ("Close the camera")] }).initialized
      = false ∧
    (run_pco env0 1 { simCam with
        msgs := [Msg.str ("Close the camera"), Msg.str ("Close the camera")] }).msgs
      = [Msg.str ("Close the camera")] ∧
    (run_pco env0 1 { simCam with
        msgs := [Msg.str ("Close the camera"), Msg.str ("Close the camera")] }).deviceCloseCalls
      = ({ simCam with
        msgs := [Msg.str ("Close the camera"), Msg.str ("Close the camera")] } : Cam).deviceCloseCalls
        + (if (({ simCam with
              msgs := [Msg.str ("Close the camera"), Msg.str ("Close the camera")] } : Cam).camera_type = "PCO"
            ∨ ({ simCam with
              msgs := [Msg.str ("Close the camera"), Msg.str ("Close the camera")] } : Cam).camera_type = "IDS")
            ∧ ({ simCam with
              msgs := [Msg.str ("Close the camera"), Msg.str ("Close the camera")] } : Cam).camera_active = true
           then 1 else 0) ∧
    (∀ k, run_loop env0 k (run_pco env0 1 { simCam with
        msgs := [Msg.str ("Close the camera"), Msg.str ("Close the camera")] })
      = run_pco env0 1 { simCam with
          msgs := [Msg.str ("Close the camera"), Msg.str ("Close the camera")] }) :=
  close_idempotent env0
    { simCam with msgs := [Msg.str ("Close the camera"), Msg.str ("Close the camera")] }
    0 [Msg.str ("Close the camera")] (by decide) (by decide)

theorem live_phase_sim (rand : Nat → Nat → Nat) (acq : Except String (List (List Nat)))
    (c : Cam) (ht : c.camera_type = "Simulated")
    (hh : 2 ≤ c.image_height) (hw : 2 ≤ c.image_width) :
    live_phase rand acq c
      = LiveStep.ok (if c.images.isFull then c
          else { c with images := { c.images with items := c.images.items
                    ++ [QItem.frame ((List.range c.image_height.toNat).map (fun i =>
                          (List.range c.image_width.toNat).map (fun j =>
                            rand i j % 255)))] } }) := by
  have hcond : 2 ≤ c.image_height ∧ 2 ≤ c.image_width := ⟨hh, hw⟩
  simp [live_phase, ht, generate_noise_picture, hcond]

theorem live_phase_pco_ok (rand : Nat → Nat → Nat) (f : List (List Nat)) (c : Cam)
    (ht : c.camera_type = "PCO") (ha : c.camera_active = true) :
    live_phase rand (Except.ok f) c
      = LiveStep.ok (if c.images.isFull then c
          else { c with images :=
                   { c.images with items := c.images.items ++ [QItem.frame f] } }) := by
  simp [live_phase, ht, ha]

theorem live_check_stop (c : Cam) (rest : List Msg)
    (hmsgs : c.msgs = Msg.str ("Stop Live Stream") :: rest) :
    (live_check c).live_stream_flag = false ∧
    (live_check c).msgs = rest ∧
    (live_check c).images = c.images ∧
    (live_check c).stopStreamCalls
      = c.stopStreamCalls
        + (if c.camera_type = "PCO" ∧ c.camera_active = true then 1 else 0) := by
  by_cases hpc : c.camera_type = "PCO" ∧ c.camera_active = true <;>
    simp [live_check, hmsgs, hpc]

theorem live_iter_ok (rand : Nat → Nat → Nat) (acq : Except String (List (List Nat)))
    (c p : Cam) (hph : live_phase rand acq c = LiveStep.ok p) :
    live_iter rand acq c = LiveStep.ok (live_check p) := by
  simp [live_iter, hph]

theorem live_loop_one_iter (rand : Nat → Nat → Nat)
    (acqs : List (Except String (List (List Nat)))) (m : Nat) (c cfin : Cam)
    (hiter : live_iter rand (acqs.headD (Except.error ("no frame"))) c
        = LiveStep.ok cfin)
    (hflag : cfin.live_stream_flag = false) :
    live_imaging_loop rand (m + 1) acqs c = (cfin, none) := by
  simp only [live_imaging_loop]
  rw [hiter]
  simp [hflag]

/-- C7: once the streaming loop consumes "Stop Live Stream" at its
once-per-tick command check, it breaks out cleanly — the device stream stop
is invoked exactly when a physical camera is active — and no further frame
is ever pushed: however much fuel remains, the loop ends after the current
tick, whose own push adds at most one frame (none when the queue was
full). -/
theorem stop_live_stream_stops_pushes (env : Env) (c : Cam) (rest : List Msg)
    (f : List (List Nat))
    (hmsgs : c.msgs = Msg.str ("Stop Live Stream") :: rest)
    (hbranch : (c.camera_type = "Simulated" ∧ 2 ≤ c.image_height ∧ 2 ≤ c.image_width)
      ∨ (c.camera_type = "PCO" ∧ c.camera_active = true
          ∧ env.acqs.headD (Except.error ("no frame")) = Except.ok f)) :
    ∃ cfin,
      (∀ m, live_imaging env.rand (m + 1) env.acqs c = (cfin, none)) ∧
      cfin.live_stream_flag = false ∧
      cfin.msgs = rest ∧
      cfin.images.items.length ≤ c.images.items.length + 1 ∧
      (c.images.isFull = true → cfin.images.items = c.images.items) ∧
      cfin.stopStreamCalls = c.stopStreamCalls
        + (if c.camera_type = "PCO" ∧ c.camera_active = true then 1 else 0) := by
  have hexists : ∃ p, live_phase env.rand (env.acqs.headD (Except.error ("no frame")))
        { c with live_stream_flag := true } = LiveStep.ok p ∧
      p.msgs = c.msgs ∧
      p.camera_type = c.camera_type ∧
      p.camera_active = c.camera_active ∧
      p.stopStreamCalls = c.stopStreamCalls ∧
      p.images.items.length ≤ c.images.items.length + 1 ∧
      (c.images.isFull = true → p.images = c.images) := by
    rcases hbranch with ⟨ht, hh, hw⟩ | ⟨ht, hact, hacq⟩
    · refine ⟨_, live_phase_sim env.rand (env.acqs.headD (Except.error ("no frame")))
          { c with live_stream_flag := true } ht hh hw, ?_⟩
      by_cases hfull : c.images.isFull = true <;> simp [hfull]
    · rw [hacq]
      refine ⟨_, live_phase_pco_ok env.rand f
          { c with live_stream_flag := true } ht hact, ?_⟩
      by_cases hfull : c.images.isFull = true <;> simp [hfull]
  obtain ⟨p, hph, hpm, hpt, hpa, hps, hpl, hpf⟩ := hexists
  have hcheck := live_check_stop p rest (by rw [hpm, hmsgs])
  refine ⟨live_check p, ?_, hcheck.1, hcheck.2.1, ?_, ?_, ?_⟩
  · intro m
    have hiter := live_iter_ok env.rand (env.acqs.headD (Except.error ("no frame")))
        { c with live_stream_flag := true } p hph
    have hloop := live_loop_one_iter env.rand env.acqs m
        { c with live_stream_flag := true } (live_check p) hiter hcheck.1
    simpa [live_imaging] using hloop
  · rw [hcheck.2.2.1]
    exact hpl
  · intro hfull
    rw [hcheck.2.2.1, hpf hfull]
  · rw [hcheck.2.2.2, hps, hpt, hpa]

/-- C7 witness: stopping a live stream on the concrete Simulated camera. -/
theorem stop_live_stream_stops_pushes_witness :
    ∃ cfin,
      (∀ m, live_imaging env0.rand (m + 1) env0.acqs
          { simCam with msgs := [Msg.str ("Stop Live Stream")] } = (cfin, none)) ∧
      cfin.live_stream_flag = false ∧
      cfin.msgs = [] ∧
      cfin.images.items.length
        ≤ ({ simCam with msgs := [Msg.str ("Stop Live Stream")] } : Cam).images.items.length
            + 1 ∧
      (({ simCam with msgs := [Msg.str ("Stop Live Stream")] } : Cam).images.isFull = true →
        cfin.images.items
          = ({ simCam with msgs := [Msg.str ("Stop Live Stream")] } : Cam).images.items) ∧
      cfin.stopStreamCalls
        = ({ simCam with msgs := [Msg.str ("Stop Live Stream")] } : Cam).stopStreamCalls
          + (if ({ simCam with msgs := [Msg.str ("Stop Live Stream")] } : Cam).camera_type
                  = "PCO"
                ∧ ({ simCam with msgs := [Msg.str ("Stop Live Stream")] } : Cam).camera_active
                  = true
             then 1 else 0) :=
  stop_live_stream_stops_pushes env0
    { simCam with msgs := [Msg.str ("Stop Live Stream")] } [] [] rfl
    (Or.inl ⟨rfl, by decide, by decide⟩)

/-- C8 (amended): during live streaming, every push of an actual acquired or
generated frame — an active physical camera with a successful acquisition,
or the Simulated camera — is guarded: when the images queue is full the
frame is dropped silently and the state is untouched, otherwise exactly that
frame is appended; the push never blocks and never raises.  (The degraded
no-hardware branch pushes its placeholder text unguarded; see the
counterexample.) -/
theorem streamed_frame_push_nonblocking (rand : Nat → Nat → Nat)
    (acq : Except String (List (List Nat))) (c : Cam) (f : List (List Nat))
    (hbranch : (c.camera_type = "Simulated" ∧ 2 ≤ c.image_height ∧ 2 ≤ c.image_width)
      ∨ (c.camera_type = "PCO" ∧ c.camera_active = true ∧ acq = Except.ok f)) :
    ∃ img, live_phase rand acq c
        = LiveStep.ok (if c.images.isFull then c
            else { c with images :=
              { c.images with items := c.images.items ++ [QItem.frame img] } }) := by
  rcases hbranch with ⟨ht, hh, hw⟩ | ⟨ht, hact, hacq⟩
  · exact ⟨_, live_phase_sim rand acq c ht hh hw⟩
  · rw [hacq]
    exact ⟨f, live_phase_pco_ok rand f c ht hact⟩

/-- C8 witness: the Simulated camera's guarded streaming push on the
concrete state. -/
theorem streamed_frame_push_nonblocking_witness :
    ∃ img, live_phase rand0 env0.acq simCam
        = LiveStep.ok (if simCam.images.isFull then simCam
            else { simCam with images :=
              { simCam.images with items := simCam.images.items ++ [QItem.frame img] } }) :=
  streamed_frame_push_nonblocking rand0 env0.acq simCam []
    (Or.inl ⟨rfl, by decide, by decide⟩)

/-- C8 (counterexample): in degraded no-hardware streaming (PCO variant with
no camera handle) the placeholder push is not guarded — with the images
queue full, the first tick raises Full, which escapes the streaming loop as
an error instead of being dropped silently. -/
theorem full_queue_raises_in_degraded_stream :
    degCam.images.isFull = true ∧
    live_imaging env0.rand 1 env0.acqs degCam
      = ({ degCam with live_stream_flag := true }, some ("Full")) := by
  refine ⟨by decide, by decide⟩
